import Mathlib

/-! shoes-ecs-task: a shallow embedding of `main.go`.

Go strings are modelled by Lean `String`s (sequences of Unicode scalar values),
Go errors by the text their `Error` method returns, and the AWS SDK by an
abstract record of operations acting on an explicit remote state.
-/

namespace ShoesEcsTask

/-! ## The parts of the Go standard library used by `main.go` -/

/-- The loop of `strings.genSplit` for a one-rune separator: `cur` is the piece
being read, cut off and emitted at every occurrence of `sep`; the remainder is
emitted last, so the result is never empty. -/
def genSplit (sep : Char) : List Char → List Char → List (List Char)
  | cur, [] => [cur]
  | cur, c :: cs => if c = sep then cur :: genSplit sep [] cs else genSplit sep (cur ++ [c]) cs

/-- The function `strings.Split(s, sep)` for a separator of one rune, which is
how `main.go` calls it (`"\n"`). -/
def Split (s : String) (sep : Char) : List String :=
  (genSplit sep [] s.data).map String.mk

/-- The function `strings.HasPrefix(s, p)`:
`len(s) >= len(p) && s[:len(p)] == p`. -/
def HasPrefix (s p : String) : Bool :=
  decide (p.data.length ≤ s.data.length) && (s.data.take p.data.length == p.data)

/-- The function `strings.Join(elems, sep)`: nothing for no element, the
element itself for one, otherwise the first element followed by `sep` and the
next element for each further element. -/
def Join (elems : List String) (sep : String) : String :=
  match elems with
  | [] => ""
  | [e] => e
  | e :: rest => rest.foldl (fun b s => b ++ sep ++ s) e

/-- The constant `utf8.RuneSelf`: runes below it are single ASCII bytes. -/
def RuneSelf : Nat := 0x80

/-- The orbits of `unicode.SimpleFold` that join an ASCII rune `lo` to a
non-ASCII rune `hi`: `K`, `k` and the Kelvin sign; `S`, `s` and the long s. -/
def simpleFoldReaches (lo hi : Char) : Bool :=
  ((lo == 'K' || lo == 'k') && hi == Char.ofNat 0x212A) ||
  ((lo == 'S' || lo == 's') && hi == Char.ofNat 0x017F)

/-- One step of the rune loop of `strings.EqualFold`: the runes match when they
are equal, or, `lo` being the smaller and `hi` the larger, when both are ASCII
and `lo` is the upper-case form of `hi`, or when `hi` is not ASCII and
`unicode.SimpleFold` leads from `lo` to `hi`. The last case is exact when one
of the runes is ASCII, which holds at every call of `main.go` (the second
argument is an ASCII literal); two different non-ASCII runes are reported as not
matching. -/
def equalFoldRune (sr tr : Char) : Bool :=
  if tr = sr then true
  else
    let lo := if tr.toNat < sr.toNat then tr else sr
    let hi := if tr.toNat < sr.toNat then sr else tr
    if hi.toNat < RuneSelf then
      decide ('A'.toNat ≤ lo.toNat ∧ lo.toNat ≤ 'Z'.toNat ∧
        hi.toNat = lo.toNat + 'a'.toNat - 'A'.toNat)
    else simpleFoldReaches lo hi

/-- The rune loop of `strings.EqualFold`: both strings are consumed rune by
rune; they are equal under folding when they are exhausted together. -/
def equalFoldRunes : List Char → List Char → Bool
  | [], t => t.isEmpty
  | _ :: _, [] => false
  | sr :: s, tr :: t => equalFoldRune sr tr && equalFoldRunes s t

/-- The function `strings.EqualFold(s, t)`. -/
def EqualFold (s t : String) : Bool :=
  equalFoldRunes s.data t.data

/-! ## `ToOneLine` -/

/-- The body of the `for _, line := range ll` loop of `ToOneLine`: a line that
starts with `#` is skipped, an empty line is skipped, any other line is appended
to `commands`. -/
def toOneLineStep (commands : List String) (line : String) : List String :=
  if HasPrefix line "#" then commands
  else if EqualFold line "" then commands
  else commands ++ [line]

/-- The function `ToOneLine` of `main.go`: convert a bash script to one line. -/
def ToOneLine (s : String) : String :=
  let ll := Split s '\n'
  let commands := ll.foldl toOneLineStep []
  Join commands ";"

/-- The flattening rule in the words of the specification: split the script
into lines on newlines, discard every line whose first character is `#`, discard
every line that is exactly empty, and join the remaining lines, in their
original order, with `;`. -/
def flattenSpec (script : String) : String :=
  String.mk (List.intercalate [';']
    ((List.splitOn '\n' script.data).filter
      (fun line => !(line.head? == some '#') && !(line == []))))

/-- The decision `ToOneLine` takes on a line, on its runes: kept when it neither
starts with `#` nor is empty. -/
def keepLine (line : List Char) : Bool :=
  !(line.head? == some '#') && !(line == [])

/-! ## Configuration: `AppConfig` and `loadAppConfig` -/

/-- An error value, represented by the text its `Error` method returns. -/
abbrev Error := String

/-- The process environment read by `os.Getenv`: a variable is set to a value
or is absent. -/
abbrev Env := String → Option String

/-- The function `os.Getenv(key)`: the value of the variable, empty when the
variable is absent. -/
def Getenv (env : Env) (key : String) : String :=
  (env key).getD ""

/-- The struct `AppConfig` of `main.go`. -/
structure AppConfig where
  Cluster : String
  TaskDefinition : String
  SubnetID : String
  Region : String
  NoWait : Bool
deriving DecidableEq

/-- The constant `EnvCluster` of `loadAppConfig`. -/
def EnvCluster : String := "ECS_TASK_CLUSTER"

/-- The constant `EnvTaskDefinition` of `loadAppConfig`. -/
def EnvTaskDefinition : String := "ECS_TASK_DEFINITION_ARN"

/-- The constant `EnvSubnetID` of `loadAppConfig`. -/
def EnvSubnetID : String := "ECS_TASK_SUBNET_ID"

/-- The constant `EnvRegion` of `loadAppConfig`. -/
def EnvRegion : String := "ECS_TASK_REGION"

/-- The constant `EnvNoWait` of `loadAppConfig`. -/
def EnvNoWait : String := "ECS_TASK_NO_WAIT"

/-- The function `loadAppConfig` of `main.go`, reading the environment `env`.
The result is the Go pair `(*AppConfig, error)`; `fmt.Errorf("must set %s", k)`
is the text `must set` followed by the key. -/
def loadAppConfig (env : Env) : Option AppConfig × Option Error :=
  if EqualFold (Getenv env EnvCluster) "" then
    (none, some ("must set " ++ EnvCluster))
  else if EqualFold (Getenv env EnvTaskDefinition) "" then
    (none, some ("must set " ++ EnvTaskDefinition))
  else if EqualFold (Getenv env EnvSubnetID) "" then
    (none, some ("must set " ++ EnvSubnetID))
  else if EqualFold (Getenv env EnvRegion) "" then
    (none, some ("must set " ++ EnvRegion))
  else
    -- Optional
    let noWait := if EqualFold (Getenv env EnvNoWait) "true" then true else false
    (some
      { Cluster := Getenv env EnvCluster
        TaskDefinition := Getenv env EnvTaskDefinition
        SubnetID := Getenv env EnvSubnetID
        Region := Getenv env EnvRegion
        NoWait := noWait },
      none)

/-- The four required keys in the order in which the specification (and
`loadAppConfig`) checks them: cluster, task template, network, region. -/
def requiredKeys : List String :=
  [EnvCluster, EnvTaskDefinition, EnvSubnetID, EnvRegion]

/-! ## The AWS SDK types used by `runTask` -/

/-- The function `aws.String(v)`: a pointer to the string `v`. -/
def awsString (v : String) : Option String :=
  some v

/-- The function `aws.ToString(p)`: the string pointed to, empty for `nil`. -/
def awsToString (p : Option String) : String :=
  match p with
  | some v => v
  | none => ""

/-- The type `types.ContainerOverride` (fields set by `runTask`). -/
structure ContainerOverride where
  Command : List String
  Name : Option String
deriving DecidableEq

/-- The type `types.TaskOverride` (fields set by `runTask`). -/
structure TaskOverride where
  ContainerOverrides : List ContainerOverride
deriving DecidableEq

/-- The type `types.AwsVpcConfiguration` (fields set by `runTask`). -/
structure AwsVpcConfiguration where
  AssignPublicIp : String
  Subnets : List String
deriving DecidableEq

/-- The type `types.NetworkConfiguration`. -/
structure NetworkConfiguration where
  AwsvpcConfiguration : Option AwsVpcConfiguration
deriving DecidableEq

/-- The type `ecs.RunTaskInput` (fields set by `runTask`; the others keep their
zero value). -/
structure RunTaskInput where
  TaskDefinition : Option String
  Cluster : Option String
  LaunchType : String
  NetworkConfiguration : Option NetworkConfiguration
  Overrides : Option TaskOverride
deriving DecidableEq

/-- The type `types.Task` (the field read by `runTask`). -/
structure EcsTask where
  TaskArn : Option String
deriving DecidableEq

/-- The type `ecs.RunTaskOutput` (the field read by `runTask`). -/
structure RunTaskOutput where
  Tasks : List EcsTask
deriving DecidableEq

/-- The type `ecs.DescribeTasksInput` (fields set by `runTask`). -/
structure DescribeTasksInput where
  Tasks : List String
  Cluster : Option String
deriving DecidableEq

/-- The constant `types.LaunchTypeFargate`. -/
def LaunchTypeFargate : String := "FARGATE"

/-- The constant `types.AssignPublicIpEnabled`. -/
def AssignPublicIpEnabled : String := "ENABLED"

/-- The constant `time.Second`, in nanoseconds. -/
def Second : Nat := 1000000000

/-- The constant `time.Minute`, in nanoseconds. -/
def Minute : Nat := 60 * Second

/-- A call made to the remote side; `κ` is the type of the client configuration
returned by `config.LoadDefaultConfig`. -/
inductive Call (κ : Type) where
  | LoadDefaultConfig (region : String)
  | RunTask (client : κ) (params : RunTaskInput)
  | Wait (client : κ) (params : DescribeTasksInput) (maxWaitDur : Nat)
deriving DecidableEq

/-- What `runTask` does not define itself: the SDK operations, acting on a
remote state of type `σ`, and the two formatters of `fmt` used in the message of
a failed wait (`%+v` of the describe-tasks input, which prints a pointer, and
`%s` of the duration). Every behaviour of the remote side, including failure
and cancellation through the context, is a value of this record. -/
structure Runtime (σ κ : Type) where
  LoadDefaultConfig : String → σ → Except Error κ × σ
  RunTask : κ → RunTaskInput → σ → Except Error RunTaskOutput × σ
  Wait : κ → DescribeTasksInput → Nat → σ → Option Error × σ
  formatInput : DescribeTasksInput → String
  formatDuration : Nat → String

/-- The remote state together with the log of the calls made so far. -/
structure World (σ κ : Type) where
  remote : σ
  calls : List (Call κ)

/-- How a Go function ends: it returns a value, or a run-time fault (panic)
stops it. -/
inductive Outcome (α : Type) where
  | returned (v : α)
  | panicked (msg : String)
deriving DecidableEq

/-! ## `runTask` -/

/-- The value `runTaskIn` built by `runTask`. -/
def runTaskIn (appConfig : AppConfig) (oneLineSetupScript : String) : RunTaskInput :=
  { TaskDefinition := awsString appConfig.TaskDefinition
    Cluster := awsString appConfig.Cluster
    LaunchType := LaunchTypeFargate
    NetworkConfiguration := some
      { AwsvpcConfiguration := some
          { AssignPublicIp := AssignPublicIpEnabled
            Subnets := [appConfig.SubnetID] } }
    Overrides := some
      { ContainerOverrides :=
          [{ Command := ["bash", "-c", oneLineSetupScript]
             Name := awsString "runner" }] } }

/-- The value `descTaskIn` built by `runTask`. -/
def descTaskIn (appConfig : AppConfig) (taskArn : String) : DescribeTasksInput :=
  { Tasks := [taskArn]
    Cluster := awsString appConfig.Cluster }

/-- The value `maxWaitDur` of `runTask`: `5 * time.Minute`. -/
def maxWaitDur : Nat := 5 * Minute

/-- The function `runTask` of `main.go`. The result is the Go pair
`(string, error)`, or a fault when `runOut.Tasks[0]` is out of range; every SDK
call is appended to the log of the world. -/
def runTask {σ κ : Type} (rt : Runtime σ κ) (appConfig : AppConfig)
    (oneLineSetupScript : String) (w : World σ κ) :
    Outcome (String × Option Error) × World σ κ :=
  let calls1 := w.calls ++ [Call.LoadDefaultConfig appConfig.Region]
  match rt.LoadDefaultConfig appConfig.Region w.remote with
  | (Except.error err, s1) =>
    (Outcome.returned ("", some ("config.LoadDefaultConfig(ctx, config.WithRegion(" ++
        appConfig.Region ++ "): " ++ err)),
      { remote := s1, calls := calls1 })
  | (Except.ok cfg, s1) =>
    let client := cfg
    let calls2 := calls1 ++ [Call.RunTask client (runTaskIn appConfig oneLineSetupScript)]
    match rt.RunTask client (runTaskIn appConfig oneLineSetupScript) s1 with
    | (Except.error err, s2) =>
      (Outcome.returned ("", some ("client.RunTask(ctx, runTaskIn): " ++ err)),
        { remote := s2, calls := calls2 })
    | (Except.ok runOut, s2) =>
      match runOut.Tasks[0]? with
      | none =>
        (Outcome.panicked "runtime error: index out of range [0] with length 0",
          { remote := s2, calls := calls2 })
      | some task0 =>
        let taskArn := awsToString task0.TaskArn
        if appConfig.NoWait then
          (Outcome.returned (taskArn, none), { remote := s2, calls := calls2 })
        else
          let calls3 := calls2 ++ [Call.Wait client (descTaskIn appConfig taskArn) maxWaitDur]
          match rt.Wait client (descTaskIn appConfig taskArn) maxWaitDur s2 with
          | (some err, s3) =>
            (Outcome.returned ("", some ("waiter.Wait(ctx, " ++
                rt.formatInput (descTaskIn appConfig taskArn) ++ ", " ++
                rt.formatDuration maxWaitDur ++ "): " ++ err)),
              { remote := s3, calls := calls3 })
          | (none, s3) =>
            (Outcome.returned (taskArn, none), { remote := s3, calls := calls3 })

/-! ## The request handler: `Client` -/

/-- The struct `Client` of `main.go`. -/
structure Client where
  appConfig : AppConfig
deriving DecidableEq

/-- The message `pb.AddInstanceRequest` (the fields of a create request). -/
structure AddInstanceRequest where
  RunnerName : String
  SetupScript : String
deriving DecidableEq

/-- The message `pb.AddInstanceResponse` (the fields set by `AddInstance`). -/
structure AddInstanceResponse where
  CloudId : String
  ShoesType : String
  IpAddress : String
deriving DecidableEq

/-- The message `pb.DeleteInstanceRequest`. -/
structure DeleteInstanceRequest where
  CloudId : String
deriving DecidableEq

/-- The message `pb.DeleteInstanceResponse`: it has no content. -/
structure DeleteInstanceResponse where
deriving DecidableEq

/-- The gRPC status codes `codes.Code` (those a handler may choose from). -/
inductive Code where
  | OK | Canceled | Unknown | InvalidArgument | DeadlineExceeded | NotFound
  | AlreadyExists | PermissionDenied | ResourceExhausted | FailedPrecondition
  | Aborted | OutOfRange | Unimplemented | Internal | Unavailable | DataLoss
  | Unauthenticated
deriving DecidableEq

/-- The error built by `status.Errorf(code, format, ...)`: a code and the
formatted message. -/
structure Status where
  code : Code
  message : String
deriving DecidableEq

/-- The method `Client.AddInstance` of `main.go`: create an ECS task. The
result is the Go pair `(*pb.AddInstanceResponse, error)`; `%+v` of the error
prints its text. A fault of `runTask` is not caught. -/
def Client.AddInstance {σ κ : Type} (rt : Runtime σ κ) (c : Client)
    (req : AddInstanceRequest) (w : World σ κ) :
    Outcome (Option AddInstanceResponse × Option Status) × World σ κ :=
  let oneLine := ToOneLine req.SetupScript
  match runTask rt c.appConfig oneLine w with
  | (Outcome.panicked msg, w1) => (Outcome.panicked msg, w1)
  | (Outcome.returned (_, some err), w1) =>
    (Outcome.returned (none, some
      { code := Code.Internal, message := "failed to runTask(): " ++ err }), w1)
  | (Outcome.returned (taskArn, none), w1) =>
    (Outcome.returned (some
      { CloudId := taskArn
        ShoesType := "ecs-task-fargate"
        IpAddress := "" }, none), w1)

/-- The method `Client.DeleteInstance` of `main.go`: deleting an ECS task is
automatic, so nothing is done. -/
def Client.DeleteInstance {σ κ : Type} (_c : Client) (_req : DeleteInstanceRequest)
    (w : World σ κ) :
    Outcome (Option DeleteInstanceResponse × Option Status) × World σ κ :=
  (Outcome.returned (some {}, none), w)

/-! ## Concrete inputs -/

/-- An environment with all five variables set. -/
def envFull : Env := fun key =>
  if key = "ECS_TASK_CLUSTER" then some "runners"
  else if key = "ECS_TASK_DEFINITION_ARN" then some "arn:aws:ecs:task-definition/runner:1"
  else if key = "ECS_TASK_SUBNET_ID" then some "subnet-0a"
  else if key = "ECS_TASK_REGION" then some "ap-northeast-1"
  else if key = "ECS_TASK_NO_WAIT" then some "True"
  else none

/-- An environment in which the task definition and the region are missing. -/
def envTwoMissing : Env := fun key =>
  if key = "ECS_TASK_CLUSTER" then some "runners"
  else if key = "ECS_TASK_SUBNET_ID" then some "subnet-0a"
  else none

/-- An environment in which only the cluster is missing. -/
def envNoCluster : Env := fun key =>
  if key = "ECS_TASK_DEFINITION_ARN" then some "arn:aws:ecs:task-definition/runner:1"
  else if key = "ECS_TASK_SUBNET_ID" then some "subnet-0a"
  else if key = "ECS_TASK_REGION" then some "ap-northeast-1"
  else none

/-- The record loaded from `envFull`. -/
def loadedFull : AppConfig :=
  { Cluster := "runners"
    TaskDefinition := "arn:aws:ecs:task-definition/runner:1"
    SubnetID := "subnet-0a"
    Region := "ap-northeast-1"
    NoWait := true }

/-- A configuration that waits for the running state. -/
def demoConfig : AppConfig :=
  { Cluster := "runners"
    TaskDefinition := "arn:aws:ecs:task-definition/runner:1"
    SubnetID := "subnet-0a"
    Region := "ap-northeast-1"
    NoWait := false }

/-- A remote side whose state counts the submitted tasks: the client is the
region, a submission returns two tasks, and the wait fails on the cluster named
`slow`. -/
def demoRuntime : Runtime Nat String :=
  { LoadDefaultConfig := fun region s => (Except.ok region, s)
    RunTask := fun _ _ s =>
      (Except.ok { Tasks := [{ TaskArn := some "arn:aws:ecs:task/1" },
        { TaskArn := some "arn:aws:ecs:task/2" }] }, s + 1)
    Wait := fun _ params _ s =>
      if params.Cluster = some "slow" then (some "exceeded max wait time", s) else (none, s)
    formatInput := fun params => String.intercalate "," params.Tasks
    formatDuration := fun _ => "5m0s" }

/-- The world before any call. -/
def demoWorld : World Nat String :=
  { remote := 0, calls := [] }

/-- A create request. -/
def demoRequest : AddInstanceRequest :=
  { RunnerName := "runner-1", SetupScript := "#!/bin/bash\necho hi\n" }

/-! ## Lemmas on the string functions -/

theorem genSplit_eq_go (sep : Char) (s cur : List Char) :
    genSplit sep cur s = List.splitOnP.go (· == sep) s cur.reverse := by
  induction s generalizing cur with
  | nil => simp [genSplit, List.splitOnP.go]
  | cons c cs ih =>
    by_cases h : c = sep
    · simp [genSplit, List.splitOnP.go, h, ih]
    · simp [genSplit, List.splitOnP.go, h, ih]

theorem genSplit_eq_splitOn (sep : Char) (s : List Char) :
    genSplit sep [] s = List.splitOn sep s := by
  rw [genSplit_eq_go]; rfl

theorem genSplit_of_not_mem (sep : Char) (s cur : List Char) (h : sep ∉ s) :
    genSplit sep cur s = [cur ++ s] := by
  induction s generalizing cur with
  | nil => simp [genSplit]
  | cons c cs ih =>
    have hc : ¬ c = sep := fun e => h (by simp [e])
    have hcs : sep ∉ cs := fun e => h (by simp [e])
    simp [genSplit, hc, ih _ hcs]

theorem not_mem_of_mem_genSplit (sep : Char) (s cur : List Char) (hcur : sep ∉ cur) :
    ∀ l ∈ genSplit sep cur s, sep ∉ l := by
  induction s generalizing cur with
  | nil => simpa [genSplit] using hcur
  | cons c cs ih =>
    by_cases h : c = sep
    · have h0 := ih [] (by simp)
      simp only [genSplit, h, if_true, List.mem_cons]
      rintro l (rfl | hl)
      · exact hcur
      · exact h0 l hl
    · simp only [genSplit, h, if_false]
      apply ih
      simp only [List.mem_append, List.mem_singleton, not_or]
      exact ⟨hcur, fun e => h e.symm⟩

theorem hasPrefix_hash (l : List Char) :
    HasPrefix (String.mk l) "#" = (l.head? == some '#') := by
  cases l with
  | nil => rfl
  | cons c cs =>
    by_cases h : c = '#'
    · subst h; simp [HasPrefix]
    · simp [HasPrefix, h]

theorem equalFold_empty (l : List Char) :
    EqualFold (String.mk l) "" = (l == []) := by
  cases l <;> rfl

theorem foldl_toOneLineStep (ll acc : List String) :
    ll.foldl toOneLineStep acc =
      acc ++ ll.filter (fun line => !(HasPrefix line "#") && !(EqualFold line "")) := by
  induction ll generalizing acc with
  | nil => simp
  | cons line rest ih =>
    rw [List.foldl_cons, ih]
    cases h1 : HasPrefix line "#" <;> cases h2 : EqualFold line "" <;>
      simp [toOneLineStep, List.filter_cons, h1, h2]

theorem intercalate_cons_cons (sep a b : List Char) (rest : List (List Char)) :
    List.intercalate sep (a :: b :: rest) = a ++ sep ++ List.intercalate sep (b :: rest) := by
  simp [List.intercalate, List.intersperse]

theorem foldl_join (sep : String) (rest : List String) (e : String) :
    (rest.foldl (fun b s => b ++ sep ++ s) e).data =
      List.intercalate sep.data (e.data :: rest.map String.data) := by
  induction rest generalizing e with
  | nil => simp [List.intercalate]
  | cons r rs ih =>
    rw [List.foldl_cons, ih, List.map_cons, intercalate_cons_cons]
    cases rs with
    | nil => simp [List.intercalate]
    | cons q qs =>
      rw [List.map_cons, intercalate_cons_cons, intercalate_cons_cons]
      simp [String.data_append, List.append_assoc]

theorem join_data (elems : List String) (sep : String) :
    (Join elems sep).data = List.intercalate sep.data (elems.map String.data) := by
  match elems with
  | [] => rfl
  | [e] => simp [Join, List.intercalate]
  | e :: r :: rest => simp only [Join]; exact foldl_join sep (r :: rest) e

/-- The runes of `ToOneLine s`: the kept lines of `s`, joined by `;`. -/
theorem toOneLine_data (s : String) :
    (ToOneLine s).data =
      List.intercalate [';'] ((genSplit '\n' [] s.data).filter keepLine) := by
  simp only [ToOneLine, Split, foldl_toOneLineStep, List.nil_append, join_data]
  rw [List.filter_map, List.map_map]
  have hfun : (String.data ∘ String.mk : List Char → List Char) = id := rfl
  have hkeep : ((fun line => !(HasPrefix line "#") && !(EqualFold line "")) ∘ String.mk)
      = keepLine := by
    funext l
    simp only [Function.comp, hasPrefix_hash, equalFold_empty, keepLine]
  rw [hfun, hkeep, List.map_id]

theorem intercalate_not_mem (c : Char) (sep : List Char) (hsep : c ∉ sep)
    (ls : List (List Char)) (h : ∀ l ∈ ls, c ∉ l) : c ∉ List.intercalate sep ls := by
  induction ls with
  | nil => simp [List.intercalate]
  | cons a rest ih =>
    cases rest with
    | nil => simpa [List.intercalate] using h a (by simp)
    | cons b r =>
      rw [intercalate_cons_cons]
      simp only [List.mem_append, not_or]
      exact ⟨⟨h a (by simp), hsep⟩, ih (fun l hl => h l (List.mem_cons_of_mem _ hl))⟩

theorem intercalate_head (sep a : List Char) (ha : a ≠ []) (rest : List (List Char)) :
    (List.intercalate sep (a :: rest)).head? = a.head? := by
  cases a with
  | nil => exact absurd rfl ha
  | cons x xs =>
    cases rest with
    | nil => simp [List.intercalate]
    | cons b r => rw [intercalate_cons_cons]; rfl

/-- The output of the flattening never starts with `#`. -/
theorem flat_head (ls : List (List Char)) :
    (List.intercalate [';'] (ls.filter keepLine)).head? ≠ some '#' := by
  cases hf : ls.filter keepLine with
  | nil => simp [List.intercalate]
  | cons a rest =>
    have hmem : a ∈ ls.filter keepLine := by rw [hf]; simp
    have hk : keepLine a = true := (List.mem_filter.mp hmem).2
    simp only [keepLine, Bool.and_eq_true, Bool.not_eq_true_eq_eq_false, beq_eq_false_iff_ne,
      ne_eq] at hk
    rw [intercalate_head _ _ hk.2]
    exact hk.1

/-- The output of the flattening holds no newline. -/
theorem flat_no_newline (d : List Char) :
    '\n' ∉ List.intercalate [';'] ((genSplit '\n' [] d).filter keepLine) := by
  apply intercalate_not_mem
  · decide
  · intro l hl
    exact not_mem_of_mem_genSplit '\n' d [] (by simp) l (List.mem_filter.mp hl).1

/-- A text without newline that does not start with `#` is left as it is. -/
theorem flat_of_clean (d : List Char) (hnl : '\n' ∉ d) (hh : d.head? ≠ some '#') :
    List.intercalate [';'] ((genSplit '\n' [] d).filter keepLine) = d := by
  rw [genSplit_of_not_mem _ _ _ hnl, List.nil_append]
  cases d with
  | nil => rfl
  | cons c cs =>
    have hk : keepLine (c :: cs) = true := by
      simp only [keepLine, Bool.and_eq_true, Bool.not_eq_true_eq_eq_false, beq_eq_false_iff_ne,
        ne_eq]
      exact ⟨hh, by simp⟩
    simp [List.filter_cons, hk, List.intercalate]

theorem toOneLine_of_clean (s : String) (hnl : '\n' ∉ s.data) (hh : s.data.head? ≠ some '#') :
    ToOneLine s = s := by
  have h := toOneLine_data s
  rw [flat_of_clean _ hnl hh] at h
  exact String.ext h

theorem equalFold_empty_iff (s : String) : EqualFold s "" = true ↔ s = "" := by
  have h := equalFold_empty s.data
  rw [show String.mk s.data = s from rfl] at h
  rw [h]
  constructor
  · intro e
    apply String.ext
    simpa using e
  · intro e
    rw [e]
    rfl

theorem char_eq_iff_toNat (a b : Char) : a = b ↔ a.toNat = b.toNat := by
  constructor
  · intro h; rw [h]
  · intro h
    have := congrArg Char.ofNat h
    simpa using this

theorem toNat_ofNat_small (n : Nat) (h : n < 0xd800) : (Char.ofNat n).toNat = n := by
  unfold Char.ofNat
  have hv : n.isValidChar := Or.inl h
  simp only [hv, dif_pos]
  simp [Char.ofNatAux, Char.toNat, UInt32.toNat]

theorem toLower_eq_iff (c l : Char) (h1 : 97 ≤ l.toNat) (h2 : l.toNat ≤ 122) :
    c.toLower = l ↔ (c.toNat = l.toNat ∨ c.toNat + 32 = l.toNat) := by
  unfold Char.toLower
  simp only []
  split
  · rename_i h
    rw [char_eq_iff_toNat, toNat_ofNat_small _ (by omega)]
    omega
  · rename_i h
    rw [char_eq_iff_toNat]
    omega

/-- Folding against a lower-case ASCII letter other than `k` and `s`: the rune
is that letter or its upper-case form. -/
theorem equalFoldRune_iff (c l : Char) (h1 : 97 ≤ l.toNat) (h2 : l.toNat ≤ 122)
    (hk : l.toNat ≠ 107) (hs : l.toNat ≠ 115) :
    equalFoldRune c l = true ↔ (c.toNat = l.toNat ∨ c.toNat + 32 = l.toNat) := by
  have hA : 'A'.toNat = 65 := rfl
  have hZ : 'Z'.toNat = 90 := rfl
  have ha : 'a'.toNat = 97 := rfl
  have hK : 'K'.toNat = 75 := rfl
  have hk' : 'k'.toNat = 107 := rfl
  have hS : 'S'.toNat = 83 := rfl
  have hs' : 's'.toNat = 115 := rfl
  unfold equalFoldRune
  by_cases e : l = c
  · subst e; simp
  · have ne : c.toNat ≠ l.toNat := fun h => e ((char_eq_iff_toNat _ _).2 h.symm)
    simp only [e, if_false, RuneSelf]
    by_cases hlt : l.toNat < c.toNat
    · simp only [hlt, if_true]
      by_cases hc : c.toNat < 128
      · simp only [hc, if_true, decide_eq_true_eq, hA, hZ, ha]
        omega
      · simp only [hc, if_false, simpleFoldReaches, Bool.or_eq_true, Bool.and_eq_true,
          beq_iff_eq, char_eq_iff_toNat, hK, hk', hS, hs']
        omega
    · simp only [hlt, if_false]
      have hl : l.toNat < 128 := by omega
      simp only [hl, if_true, decide_eq_true_eq, hA, hZ, ha]
      omega

theorem equalFoldRune_iff_toLower (c l : Char) (h1 : 97 ≤ l.toNat) (h2 : l.toNat ≤ 122)
    (hk : l.toNat ≠ 107) (hs : l.toNat ≠ 115) :
    equalFoldRune c l = true ↔ c.toLower = l := by
  rw [equalFoldRune_iff c l h1 h2 hk hs, toLower_eq_iff c l h1 h2]

/-- Folding against `true`: the value, put in lower case, is `true`. -/
theorem equalFold_true_iff (v : String) :
    EqualFold v "true" = true ↔ v.data.map Char.toLower = "true".data := by
  have ht := fun c => equalFoldRune_iff_toLower c 't' (by decide) (by decide) (by decide)
    (by decide)
  have hr := fun c => equalFoldRune_iff_toLower c 'r' (by decide) (by decide) (by decide)
    (by decide)
  have hu := fun c => equalFoldRune_iff_toLower c 'u' (by decide) (by decide) (by decide)
    (by decide)
  have he := fun c => equalFoldRune_iff_toLower c 'e' (by decide) (by decide) (by decide)
    (by decide)
  unfold EqualFold
  rw [show "true".data = ['t', 'r', 'u', 'e'] from rfl]
  match v.data with
  | [] => simp [equalFoldRunes]
  | [a] => simp [equalFoldRunes]
  | [a, b] => simp [equalFoldRunes]
  | [a, b, c] => simp [equalFoldRunes]
  | [a, b, c, d] => simp [equalFoldRunes, ht, hr, hu, he]
  | a :: b :: c :: d :: e :: r => simp [equalFoldRunes]

theorem loadAppConfig_ok_iff (env : Env) :
    (loadAppConfig env).2 = none ↔
      Getenv env EnvCluster ≠ "" ∧ Getenv env EnvTaskDefinition ≠ "" ∧
      Getenv env EnvSubnetID ≠ "" ∧ Getenv env EnvRegion ≠ "" := by
  by_cases h1 : Getenv env EnvCluster = "" <;>
  by_cases h2 : Getenv env EnvTaskDefinition = "" <;>
  by_cases h3 : Getenv env EnvSubnetID = "" <;>
  by_cases h4 : Getenv env EnvRegion = "" <;>
  simp [loadAppConfig, equalFold_empty_iff, h1, h2, h3, h4]

theorem loadAppConfig_some (env : Env) (c : AppConfig) (h : (loadAppConfig env).1 = some c) :
    (Getenv env EnvCluster ≠ "" ∧ Getenv env EnvTaskDefinition ≠ "" ∧
      Getenv env EnvSubnetID ≠ "" ∧ Getenv env EnvRegion ≠ "") ∧
    c = { Cluster := Getenv env EnvCluster
          TaskDefinition := Getenv env EnvTaskDefinition
          SubnetID := Getenv env EnvSubnetID
          Region := Getenv env EnvRegion
          NoWait := EqualFold (Getenv env EnvNoWait) "true" } := by
  by_cases h1 : Getenv env EnvCluster = ""
  · simp [loadAppConfig, equalFold_empty_iff, h1] at h
  by_cases h2 : Getenv env EnvTaskDefinition = ""
  · simp [loadAppConfig, equalFold_empty_iff, h1, h2] at h
  by_cases h3 : Getenv env EnvSubnetID = ""
  · simp [loadAppConfig, equalFold_empty_iff, h1, h2, h3] at h
  by_cases h4 : Getenv env EnvRegion = ""
  · simp [loadAppConfig, equalFold_empty_iff, h1, h2, h3, h4] at h
  refine ⟨⟨h1, h2, h3, h4⟩, ?_⟩
  simp only [loadAppConfig, equalFold_empty_iff, h1, h2, h3, h4, if_false,
    Option.some.injEq] at h
  rw [← h]
  cases EqualFold (Getenv env EnvNoWait) "true" <;> rfl

/-! ## Theorems on `ToOneLine` -/

/-- C1: for every input, ToOneLine gives what the specification describes (the
lines of the input that are neither empty nor start with `#`, in their order,
joined by `;`); a line of spaces and a line whose `#` follows a blank are kept
unchanged; the example script gives "echo hi;ls -la" and the empty input the
empty output. -/
theorem C1_toOneLine_refines_spec :
    (∀ s : String, ToOneLine s = flattenSpec s) ∧
    ToOneLine "a\n   \n  # b\n#c" = "a;   ;  # b" ∧
    ToOneLine "#!/bin/bash\n\n# comment\necho hi\nls -la" = "echo hi;ls -la" ∧
    ToOneLine "" = "" := by
  refine ⟨fun s => ?_, by decide, by decide, by decide⟩
  apply String.ext
  rw [toOneLine_data, genSplit_eq_splitOn]
  rfl

/-- C2: on an input without newline that does not begin with `#`, applying
ToOneLine twice gives the same as applying it once. -/
theorem C2_toOneLine_idempotent_single_line (s : String)
    (hnl : '\n' ∉ s.data) (hhash : HasPrefix s "#" = false) :
    ToOneLine (ToOneLine s) = ToOneLine s := by
  have hh : s.data.head? ≠ some '#' := by
    have := hasPrefix_hash s.data
    rw [show String.mk s.data = s from rfl, hhash] at this
    intro e
    rw [e] at this
    simp at this
  rw [toOneLine_of_clean s hnl hh, toOneLine_of_clean s hnl hh]

theorem C2_toOneLine_idempotent_single_line_witness :
    '\n' ∉ "echo hi".data ∧ HasPrefix "echo hi" "#" = false ∧
      ToOneLine (ToOneLine "echo hi") = ToOneLine "echo hi" :=
  ⟨by decide, by decide,
    C2_toOneLine_idempotent_single_line "echo hi" (by decide) (by decide)⟩

/-- C10: for every input, the output of ToOneLine holds no newline and does not
begin with `#`, and ToOneLine applied to its own output gives that output. -/
theorem C10_toOneLine_output_clean_and_idempotent (s : String) :
    '\n' ∉ (ToOneLine s).data ∧ HasPrefix (ToOneLine s) "#" = false ∧
      ToOneLine (ToOneLine s) = ToOneLine s := by
  have hnl : '\n' ∉ (ToOneLine s).data := by
    rw [toOneLine_data]; exact flat_no_newline _
  have hh : (ToOneLine s).data.head? ≠ some '#' := by
    rw [toOneLine_data]; exact flat_head _
  refine ⟨hnl, ?_, toOneLine_of_clean _ hnl hh⟩
  have := hasPrefix_hash (ToOneLine s).data
  rw [show String.mk (ToOneLine s).data = ToOneLine s from rfl] at this
  rw [this]
  simpa using hh

/-! ## Theorems on `loadAppConfig` -/

/-- C3: when at least one of the four required keys reads as empty,
loadAppConfig returns no record and the error `must set <key>` for the first
empty key in the order cluster, task definition, subnet, region, whatever the
later keys hold; in particular an absent cluster gives the error naming
ECS_TASK_CLUSTER. -/
theorem C3_loadAppConfig_first_missing_key (env : Env) :
    ((∃ k ∈ requiredKeys, Getenv env k = "") →
      ∃ k, requiredKeys.find? (fun k => Getenv env k == "") = some k ∧
        loadAppConfig env = (none, some ("must set " ++ k))) ∧
    (env EnvCluster = none →
      loadAppConfig env = (none, some "must set ECS_TASK_CLUSTER")) := by
  constructor
  · intro h
    by_cases h1 : Getenv env EnvCluster = ""
    · exact ⟨EnvCluster, by simp [requiredKeys, h1],
        by simp [loadAppConfig, equalFold_empty_iff, h1]⟩
    by_cases h2 : Getenv env EnvTaskDefinition = ""
    · exact ⟨EnvTaskDefinition, by simp [requiredKeys, h1, h2],
        by simp [loadAppConfig, equalFold_empty_iff, h1, h2]⟩
    by_cases h3 : Getenv env EnvSubnetID = ""
    · exact ⟨EnvSubnetID, by simp [requiredKeys, h1, h2, h3],
        by simp [loadAppConfig, equalFold_empty_iff, h1, h2, h3]⟩
    by_cases h4 : Getenv env EnvRegion = ""
    · exact ⟨EnvRegion, by simp [requiredKeys, h1, h2, h3, h4],
        by simp [loadAppConfig, equalFold_empty_iff, h1, h2, h3, h4]⟩
    exfalso
    simp [requiredKeys, h1, h2, h3, h4] at h
  · intro h
    have h1 : Getenv env EnvCluster = "" := by simp [Getenv, h]
    simp [loadAppConfig, equalFold_empty_iff, h1]
    rfl

theorem C3_loadAppConfig_first_missing_key_witness :
    (∃ k ∈ requiredKeys, Getenv envTwoMissing k = "") ∧
    (∃ k, requiredKeys.find? (fun k => Getenv envTwoMissing k == "") = some k ∧
      loadAppConfig envTwoMissing = (none, some ("must set " ++ k))) ∧
    envNoCluster EnvCluster = none ∧
    loadAppConfig envNoCluster = (none, some "must set ECS_TASK_CLUSTER") :=
  ⟨⟨EnvRegion, by decide, by decide⟩,
    (C3_loadAppConfig_first_missing_key envTwoMissing).1 ⟨EnvRegion, by decide, by decide⟩,
    by decide,
    (C3_loadAppConfig_first_missing_key envNoCluster).2 (by decide)⟩

/-- C4: loadAppConfig succeeds exactly when the four required keys read as
non-empty; it returns a record exactly when it succeeds, and the record's
Cluster, TaskDefinition, SubnetID and Region are the values read for their keys,
none of them empty. -/
theorem C4_loadAppConfig_required_fields (env : Env) :
    ((loadAppConfig env).2 = none ↔
      Getenv env EnvCluster ≠ "" ∧ Getenv env EnvTaskDefinition ≠ "" ∧
      Getenv env EnvSubnetID ≠ "" ∧ Getenv env EnvRegion ≠ "") ∧
    ((∃ c, (loadAppConfig env).1 = some c) ↔ (loadAppConfig env).2 = none) ∧
    (∀ c, (loadAppConfig env).1 = some c →
      (c.Cluster = Getenv env EnvCluster ∧ c.Cluster ≠ "") ∧
      (c.TaskDefinition = Getenv env EnvTaskDefinition ∧ c.TaskDefinition ≠ "") ∧
      (c.SubnetID = Getenv env EnvSubnetID ∧ c.SubnetID ≠ "") ∧
      (c.Region = Getenv env EnvRegion ∧ c.Region ≠ "")) := by
  refine ⟨loadAppConfig_ok_iff env, ?_, ?_⟩
  · rw [loadAppConfig_ok_iff]
    constructor
    · rintro ⟨c, hc⟩
      exact (loadAppConfig_some env c hc).1
    · rintro ⟨h1, h2, h3, h4⟩
      simp [loadAppConfig, equalFold_empty_iff, h1, h2, h3, h4]
  · intro c hc
    obtain ⟨⟨h1, h2, h3, h4⟩, rfl⟩ := loadAppConfig_some env c hc
    exact ⟨⟨rfl, h1⟩, ⟨rfl, h2⟩, ⟨rfl, h3⟩, ⟨rfl, h4⟩⟩

theorem C4_loadAppConfig_required_fields_witness :
    (loadAppConfig envFull).1 = some loadedFull ∧
    (loadedFull.Cluster = Getenv envFull EnvCluster ∧ loadedFull.Cluster ≠ "") ∧
    (loadedFull.TaskDefinition = Getenv envFull EnvTaskDefinition ∧
      loadedFull.TaskDefinition ≠ "") ∧
    (loadedFull.SubnetID = Getenv envFull EnvSubnetID ∧ loadedFull.SubnetID ≠ "") ∧
    (loadedFull.Region = Getenv envFull EnvRegion ∧ loadedFull.Region ≠ "") :=
  ⟨by decide, (C4_loadAppConfig_required_fields envFull).2.2 loadedFull (by decide)⟩

/-- C5: when loadAppConfig succeeds, NoWait is true exactly when the value of
ECS_TASK_NO_WAIT, put in lower case, is `true`; the values `true`, `TRUE` and
`True` give NoWait = true, and the values `false`, the empty value and an absent
key give NoWait = false. -/
theorem C5_loadAppConfig_noWait (env : Env) (c : AppConfig)
    (h : loadAppConfig env = (some c, none)) :
    (c.NoWait = true ↔ (Getenv env EnvNoWait).data.map Char.toLower = "true".data) ∧
    (env EnvNoWait = some "true" ∨ env EnvNoWait = some "TRUE" ∨
      env EnvNoWait = some "True" → c.NoWait = true) ∧
    (env EnvNoWait = some "false" ∨ env EnvNoWait = some "" ∨
      env EnvNoWait = none → c.NoWait = false) := by
  have hc : (loadAppConfig env).1 = some c := by rw [h]
  have hnw : c.NoWait = EqualFold (Getenv env EnvNoWait) "true" := by
    rw [(loadAppConfig_some env c hc).2]
  refine ⟨?_, ?_, ?_⟩
  · rw [hnw]; exact equalFold_true_iff _
  · rintro (e | e | e) <;> rw [hnw] <;> simp only [Getenv, e, Option.getD_some] <;> decide
  · rintro (e | e | e) <;> rw [hnw] <;>
      simp only [Getenv, e, Option.getD_some, Option.getD_none] <;> decide

theorem C5_loadAppConfig_noWait_witness :
    loadAppConfig envFull = (some loadedFull, none) ∧
    (loadedFull.NoWait = true ↔
      (Getenv envFull EnvNoWait).data.map Char.toLower = "true".data) :=
  ⟨by decide, (C5_loadAppConfig_noWait envFull loadedFull (by decide)).1⟩

/-! ## Theorems on the request handler and on `runTask` -/

/-- C6: for every configuration and every delete request, whatever identifier
it carries, DeleteInstance returns the empty response with no error and leaves
the remote state and the log of calls as they were. -/
theorem C6_deleteInstance_noop {σ κ : Type} (c : Client) (req : DeleteInstanceRequest)
    (w : World σ κ) :
    (Client.DeleteInstance c req w).1 =
      Outcome.returned (some DeleteInstanceResponse.mk, none) ∧
    (Client.DeleteInstance c req w).2.remote = w.remote ∧
    (Client.DeleteInstance c req w).2.calls = w.calls :=
  ⟨rfl, rfl, rfl⟩

/-- C7: AddInstance runs the launcher on the held configuration and the command
ToOneLine(req.SetupScript), and leaves the world as the launcher left it; when
the launcher returns the identifier t, AddInstance returns the response with
CloudId t, ShoesType `ecs-task-fargate` and an empty IpAddress, with no error;
when the launcher returns an error, AddInstance returns no response and an error
of code Internal whose message ends with the message of the cause. -/
theorem C7_addInstance_maps_launcher_result {σ κ : Type} (rt : Runtime σ κ) (c : Client)
    (req : AddInstanceRequest) (w : World σ κ) :
    (Client.AddInstance rt c req w).2 =
      (runTask rt c.appConfig (ToOneLine req.SetupScript) w).2 ∧
    (∀ t w1,
      runTask rt c.appConfig (ToOneLine req.SetupScript) w =
        (Outcome.returned (t, none), w1) →
      Client.AddInstance rt c req w =
        (Outcome.returned
          (some { CloudId := t, ShoesType := "ecs-task-fargate", IpAddress := "" }, none),
          w1)) ∧
    (∀ v err w1,
      runTask rt c.appConfig (ToOneLine req.SetupScript) w =
        (Outcome.returned (v, some err), w1) →
      ∃ msg,
        Client.AddInstance rt c req w =
          (Outcome.returned (none, some { code := Code.Internal, message := msg }), w1) ∧
        msg = "failed to runTask(): " ++ err ∧ err.data <:+ msg.data) := by
  refine ⟨?_, ?_, ?_⟩
  · unfold Client.AddInstance
    simp only []
    split <;> simp_all
  · intro t w1 h
    simp only [Client.AddInstance, h]
  · intro v err w1 h
    refine ⟨"failed to runTask(): " ++ err, ?_, rfl, ?_⟩
    · simp only [Client.AddInstance, h]
    · rw [String.data_append]
      exact List.suffix_append _ _

theorem C7_addInstance_maps_launcher_result_witness :
    runTask demoRuntime demoConfig (ToOneLine demoRequest.SetupScript) demoWorld =
      (Outcome.returned ("arn:aws:ecs:task/1", none),
        { remote := 1,
          calls := [Call.LoadDefaultConfig "ap-northeast-1",
            Call.RunTask "ap-northeast-1" (runTaskIn demoConfig "echo hi"),
            Call.Wait "ap-northeast-1"
              { Tasks := ["arn:aws:ecs:task/1"], Cluster := some "runners" } 300000000000] }) ∧
    Client.AddInstance demoRuntime { appConfig := demoConfig } demoRequest demoWorld =
      (Outcome.returned
        (some { CloudId := "arn:aws:ecs:task/1", ShoesType := "ecs-task-fargate",
                IpAddress := "" }, none),
        { remote := 1,
          calls := [Call.LoadDefaultConfig "ap-northeast-1",
            Call.RunTask "ap-northeast-1" (runTaskIn demoConfig "echo hi"),
            Call.Wait "ap-northeast-1"
              { Tasks := ["arn:aws:ecs:task/1"], Cluster := some "runners" } 300000000000] }) :=
  ⟨rfl,
    (C7_addInstance_maps_launcher_result demoRuntime { appConfig := demoConfig } demoRequest
      demoWorld).2.1 _ _ rfl⟩

/-- C8: when the client construction and the submission succeed and the first
returned task has identifier t, runTask (a) with NoWait true returns t with no
error after the two calls LoadDefaultConfig and RunTask only, no wait being
made, and (b) with NoWait false makes exactly one further call, the wait for t
on the configured cluster with a ceiling of five minutes, and returns t with no
error when the wait succeeds, and an error, not the success with t, when the
wait fails. -/
theorem C8_runTask_wait_modes {σ κ : Type} (rt : Runtime σ κ) (appConfig : AppConfig)
    (command : String) (w : World σ κ) (client : κ) (s1 s2 : σ) (runOut : RunTaskOutput)
    (task : EcsTask) (rest : List EcsTask)
    (hload : rt.LoadDefaultConfig appConfig.Region w.remote = (Except.ok client, s1))
    (hrun : rt.RunTask client (runTaskIn appConfig command) s1 = (Except.ok runOut, s2))
    (htasks : runOut.Tasks = task :: rest) :
    (appConfig.NoWait = true →
      runTask rt appConfig command w =
        (Outcome.returned (awsToString task.TaskArn, none),
          { remote := s2
            calls := w.calls ++ [Call.LoadDefaultConfig appConfig.Region,
              Call.RunTask client (runTaskIn appConfig command)] })) ∧
    (appConfig.NoWait = false →
      (runTask rt appConfig command w).2.calls =
        w.calls ++ [Call.LoadDefaultConfig appConfig.Region,
          Call.RunTask client (runTaskIn appConfig command),
          Call.Wait client
            { Tasks := [awsToString task.TaskArn], Cluster := some appConfig.Cluster }
            (5 * 60 * 1000000000)] ∧
      (∀ s3,
        rt.Wait client { Tasks := [awsToString task.TaskArn], Cluster := some appConfig.Cluster }
          (5 * 60 * 1000000000) s2 = (none, s3) →
        (runTask rt appConfig command w).1 =
            Outcome.returned (awsToString task.TaskArn, none) ∧
          (runTask rt appConfig command w).2.remote = s3) ∧
      (∀ err s3,
        rt.Wait client { Tasks := [awsToString task.TaskArn], Cluster := some appConfig.Cluster }
          (5 * 60 * 1000000000) s2 = (some err, s3) →
        (∃ msg, (runTask rt appConfig command w).1 = Outcome.returned ("", some msg) ∧
          err.data <:+ msg.data) ∧
        (runTask rt appConfig command w).1 ≠
          Outcome.returned (awsToString task.TaskArn, none) ∧
        (runTask rt appConfig command w).2.remote = s3)) := by
  have hd : descTaskIn appConfig (awsToString task.TaskArn) =
      { Tasks := [awsToString task.TaskArn], Cluster := some appConfig.Cluster } := rfl
  have hm : maxWaitDur = 5 * 60 * 1000000000 := by decide
  constructor
  · intro hnw
    simp [runTask, hload, hrun, htasks, hnw]
  · intro hnw
    refine ⟨?_, ?_, ?_⟩
    · simp only [runTask, hload, hrun, htasks, hnw, List.getElem?_cons_zero, hd, hm]
      rcases hw : rt.Wait client
        { Tasks := [awsToString task.TaskArn], Cluster := some appConfig.Cluster }
        (5 * 60 * 1000000000) s2 with ⟨_ | err, s3⟩ <;> simp
    · intro s3 hw
      simp [runTask, hload, hrun, htasks, hnw, hd, hm, hw]
    · intro err s3 hw
      simp only [runTask, hload, hrun, htasks, hnw, List.getElem?_cons_zero, hd, hm, hw]
      refine ⟨⟨_, rfl, ?_⟩, ?_, rfl⟩
      · rw [String.data_append]
        exact List.suffix_append _ _
      · simp

theorem C8_runTask_wait_modes_witness :
    demoRuntime.LoadDefaultConfig demoConfig.Region demoWorld.remote =
      (Except.ok "ap-northeast-1", 0) ∧
    demoRuntime.RunTask "ap-northeast-1" (runTaskIn demoConfig "echo hi") 0 =
      (Except.ok { Tasks := [{ TaskArn := some "arn:aws:ecs:task/1" },
        { TaskArn := some "arn:aws:ecs:task/2" }] }, 1) ∧
    demoConfig.NoWait = false ∧
    (runTask demoRuntime demoConfig "echo hi" demoWorld).2.calls =
      demoWorld.calls ++ [Call.LoadDefaultConfig demoConfig.Region,
        Call.RunTask "ap-northeast-1" (runTaskIn demoConfig "echo hi"),
        Call.Wait "ap-northeast-1"
          { Tasks := [awsToString (some "arn:aws:ecs:task/1")],
            Cluster := some demoConfig.Cluster }
          (5 * 60 * 1000000000)] :=
  ⟨rfl, rfl, rfl,
    ((C8_runTask_wait_modes demoRuntime demoConfig "echo hi" demoWorld "ap-northeast-1" 0 1
      { Tasks := [{ TaskArn := some "arn:aws:ecs:task/1" },
        { TaskArn := some "arn:aws:ecs:task/2" }] }
      { TaskArn := some "arn:aws:ecs:task/1" } [{ TaskArn := some "arn:aws:ecs:task/2" }]
      rfl rfl rfl).2 rfl).1⟩

/-- C9: after a successful submission, runTask returns (does not fault) exactly
when the returned task list is non-empty; on an empty list it stops with an
index fault, not with an error value; on a list of one or several tasks a
success carries the identifier of the first task, and the only wait it makes is
for that identifier. -/
theorem C9_runTask_index_zero {σ κ : Type} (rt : Runtime σ κ) (appConfig : AppConfig)
    (command : String) (w : World σ κ) (client : κ) (s1 s2 : σ) (runOut : RunTaskOutput)
    (hload : rt.LoadDefaultConfig appConfig.Region w.remote = (Except.ok client, s1))
    (hrun : rt.RunTask client (runTaskIn appConfig command) s1 = (Except.ok runOut, s2)) :
    ((∃ v, (runTask rt appConfig command w).1 = Outcome.returned v) ↔ runOut.Tasks ≠ []) ∧
    (runOut.Tasks = [] →
      (runTask rt appConfig command w).1 =
        Outcome.panicked "runtime error: index out of range [0] with length 0") ∧
    (∀ task rest, runOut.Tasks = task :: rest →
      (∀ v, (runTask rt appConfig command w).1 = Outcome.returned (v, none) →
        v = awsToString task.TaskArn) ∧
      (∀ k d n, Call.Wait k d n ∈ (runTask rt appConfig command w).2.calls →
        Call.Wait k d n ∈ w.calls ∨ d.Tasks = [awsToString task.TaskArn])) := by
  have hnil : runOut.Tasks = [] →
      (runTask rt appConfig command w).1 =
        Outcome.panicked "runtime error: index out of range [0] with length 0" := by
    intro h
    simp [runTask, hload, hrun, h]
  have hcons : ∀ task rest, runOut.Tasks = task :: rest →
      (runTask rt appConfig command w).1 = Outcome.returned (awsToString task.TaskArn, none) ∨
      ∃ msg, (runTask rt appConfig command w).1 = Outcome.returned ("", some msg) := by
    intro task rest h
    cases hnw : appConfig.NoWait
    · rcases hw : rt.Wait client (descTaskIn appConfig (awsToString task.TaskArn)) maxWaitDur s2
        with ⟨_ | err, s3⟩
      · left; simp [runTask, hload, hrun, h, hnw, hw]
      · right; simp [runTask, hload, hrun, h, hnw, hw]
    · left; simp [runTask, hload, hrun, h, hnw]
  refine ⟨?_, hnil, ?_⟩
  · constructor
    · rintro ⟨v, hv⟩ h
      rw [hnil h] at hv
      cases hv
    · intro h
      cases ht : runOut.Tasks with
      | nil => exact absurd ht h
      | cons task rest =>
        rcases hcons task rest ht with h1 | ⟨msg, h1⟩
        · exact ⟨_, h1⟩
        · exact ⟨_, h1⟩
  · intro task rest h
    constructor
    · intro v hv
      rcases hcons task rest h with h1 | ⟨msg, h1⟩
      · rw [h1] at hv
        cases hv
        rfl
      · rw [h1] at hv
        cases hv
    · intro k d n hmem
      cases hnw : appConfig.NoWait
      · rcases hw : rt.Wait client (descTaskIn appConfig (awsToString task.TaskArn))
          maxWaitDur s2 with ⟨_ | err, s3⟩ <;>
        · simp [runTask, hload, hrun, h, hnw, hw] at hmem
          rcases hmem with hmem | ⟨_, rfl, _⟩
          · exact Or.inl hmem
          · exact Or.inr rfl
      · simp [runTask, hload, hrun, h, hnw] at hmem
        exact Or.inl hmem

theorem C9_runTask_index_zero_witness :
    demoRuntime.LoadDefaultConfig demoConfig.Region demoWorld.remote =
      (Except.ok "ap-northeast-1", 0) ∧
    demoRuntime.RunTask "ap-northeast-1" (runTaskIn demoConfig "ls") 0 =
      (Except.ok { Tasks := [{ TaskArn := some "arn:aws:ecs:task/1" },
        { TaskArn := some "arn:aws:ecs:task/2" }] }, 1) ∧
    ∃ v, (runTask demoRuntime demoConfig "ls" demoWorld).1 = Outcome.returned v :=
  ⟨rfl, rfl,
    (C9_runTask_index_zero demoRuntime demoConfig "ls" demoWorld "ap-northeast-1" 0 1
      { Tasks := [{ TaskArn := some "arn:aws:ecs:task/1" },
        { TaskArn := some "arn:aws:ecs:task/2" }] } rfl rfl).1.2 (by decide)⟩

end ShoesEcsTask
